import Mathlib

/-!
Verification of the clinker alignment core (`clinker/align.py`).

The Python source is shallowly embedded: each Python function the claims
touch is translated into an executable Lean definition of the same name
(where Lean permits), stateful code is modelled by explicit state passing,
fallible code returns `Except`/`Option`, and Python floats (which here only
ever hold exact small fractions produced by divisions of small integers)
are modelled by `ℚ`.
-/

namespace Clinker

/-! ## Identity/similarity calculator (`compute_identity`) -/

/-- Gap characters recognised by `compute_identity` (the Python set
`{"-", "."}` at line 125 of align.py). -/
def gapChars : List Char := ['-', '.']

/-- Amino acid similarity groups (`similar_acids`, align.py lines 111-119). -/
def similar_acids : List (List Char) :=
  [ ['G', 'A', 'V', 'L', 'I'],
    ['F', 'Y', 'W'],
    ['C', 'M'],
    ['S', 'T'],
    ['K', 'R', 'H'],
    ['D', 'E', 'N', 'Q'],
    ['P'] ]

/-- Column tallies of `compute_identity`s main loop (align.py lines 121-134):
returns `(matches, similar, gapColumns)` for a list of aligned columns.
A column with identical non-gap residues increments `matches`; an identical
gap pair increments `gapColumns` (the Python code decrements `length`);
a mismatching column lying in some common similarity group increments
`similar` (the inner `for`/`break` fires at most once per column). -/
def identityCounts : List (Char × Char) → Nat × Nat × Nat
  | [] => (0, 0, 0)
  | (a, b) :: rest =>
    let r := identityCounts rest
    if a = b then
      if a ∈ gapChars then (r.1, r.2.1, r.2.2 + 1) else (r.1 + 1, r.2.1, r.2.2)
    else
      if similar_acids.any (fun grp => grp.contains a && grp.contains b) then
        (r.1, r.2.1 + 1, r.2.2)
      else r

/-- Embedding of `compute_identity` (align.py lines 104-138) on the two
aligned, equal-length gapped strings extracted from the BioPython alignment
object. The columns are the pointwise zip of the strings; the denominator
is `len(one)` minus the number of gap-aligned-to-gap columns. Python's
`ZeroDivisionError` on an empty effective length is modelled by `none`. -/
def compute_identity (one two : List Char) : Option (ℚ × ℚ) :=
  let c := identityCounts (one.zip two)
  let effLen : Nat := one.length - c.2.2
  if effLen = 0 then none
  else some ((c.1 : ℚ) / (effLen : ℚ), (((c.1 + c.2.1 : Nat)) : ℚ) / (effLen : ℚ))

/-- The three tallies together never exceed the number of columns. -/
theorem identityCounts_le (l : List (Char × Char)) :
    (identityCounts l).1 + (identityCounts l).2.1 + (identityCounts l).2.2 ≤ l.length := by
  induction l with
  | nil => simp [identityCounts]
  | cons p rest ih =>
    obtain ⟨a, b⟩ := p
    simp only [identityCounts, List.length_cons]
    split
    · split <;> (try dsimp only) <;> omega
    · split <;> (try dsimp only) <;> omega

/-- On a list of columns that are all gap-aligned-to-gap, every column lands
in the gap tally. -/
theorem identityCounts_allgap (l : List (Char × Char))
    (h : ∀ p ∈ l, p.1 = p.2 ∧ p.1 ∈ gapChars) :
    identityCounts l = (0, 0, l.length) := by
  induction l with
  | nil => simp [identityCounts]
  | cons p rest ih =>
    obtain ⟨a, b⟩ := p
    obtain ⟨hab, hgap⟩ := h (a, b) (List.mem_cons_self _ _)
    have hrest := ih (fun q hq => h q (List.mem_cons_of_mem _ hq))
    simp only [identityCounts, List.length_cons, hrest]
    rw [if_pos hab, if_pos hgap]

/-- C7: for every pair of equal-length gapped input strings on which
`compute_identity` returns a result, the result satisfies
`0 ≤ identity ≤ similarity ≤ 1`. -/
theorem c7_identity_similarity_bounds (one two : List Char)
    (hlen : one.length = two.length) (idv sim : ℚ)
    (h : compute_identity one two = some (idv, sim)) :
    0 ≤ idv ∧ idv ≤ sim ∧ sim ≤ 1 := by
  have hle := identityCounts_le (one.zip two)
  have hzlen : (one.zip two).length = one.length := by
    rw [List.length_zip, hlen, min_self]
  simp only [compute_identity] at h
  split at h
  · exact absurd h (by simp)
  · rename_i hne
    simp only [Option.some.injEq, Prod.mk.injEq] at h
    obtain ⟨h1, h2⟩ := h
    subst h1; subst h2
    set n := (identityCounts (one.zip two)).1 with hn
    set s := (identityCounts (one.zip two)).2.1 with hs
    set g := (identityCounts (one.zip two)).2.2 with hg
    have hms : n + s ≤ one.length - g := by
      rw [hzlen] at hle; omega
    have hpos : (0 : ℚ) < ((one.length - g : Nat) : ℚ) := by
      exact_mod_cast Nat.pos_of_ne_zero hne
    refine ⟨by positivity, ?_, ?_⟩
    · apply div_le_div_of_nonneg_right ?_ hpos.le
      exact_mod_cast Nat.le_add_right n s
    · rw [div_le_one hpos]
      exact_mod_cast hms

/-- Witness for C7 at the concrete input pair "MSTK"/"MSTK". -/
theorem c7_identity_similarity_bounds_witness :
    0 ≤ (1 : ℚ) ∧ (1 : ℚ) ≤ (1 : ℚ) ∧ (1 : ℚ) ≤ 1 :=
  c7_identity_similarity_bounds ['M', 'S', 'T', 'K'] ['M', 'S', 'T', 'K'] rfl 1 1
    (by
      have h : identityCounts [('M', 'M'), ('S', 'S'), ('T', 'T'), ('K', 'K')] = (4, 0, 0) := by
        decide
      norm_num [compute_identity, h])

/-- C9: on equal-length inputs whose every column is a gap aligned to a gap
(including the pair of empty strings), the effective length becomes 0 and
`compute_identity` fails (Python raises `ZeroDivisionError`, modelled by
`none`) instead of returning a value. -/
theorem c9_all_gap_columns_divide_by_zero (one two : List Char)
    (hlen : one.length = two.length)
    (hgap : ∀ p ∈ one.zip two, p.1 = p.2 ∧ p.1 ∈ gapChars) :
    compute_identity one two = none := by
  have hcnt := identityCounts_allgap (one.zip two) hgap
  have hzlen : (one.zip two).length = one.length := by
    rw [List.length_zip, hlen, min_self]
  simp [compute_identity, hcnt, hzlen]

/-- Witness for C9 at the concrete all-gap input pair "--"/"--". -/
theorem c9_all_gap_columns_divide_by_zero_witness :
    compute_identity ['-', '-'] ['-', '-'] = none :=
  c9_all_gap_columns_divide_by_zero ['-', '-'] ['-', '-'] rfl (by decide)

/-- C6 counterexample: on the pair "MS-K"/"MSTK" the gap-versus-residue
column is NOT excluded from the denominator (only gap-aligned-to-gap columns
are), so the result is identity = similarity = 3/4, refuting the claimed
identity of 1.0. -/
theorem c6_gap_column_counterexample :
    compute_identity ['M', 'S', '-', 'K'] ['M', 'S', 'T', 'K'] = some (3/4, 3/4) ∧
    compute_identity ['M', 'S', '-', 'K'] ['M', 'S', 'T', 'K'] ≠ some (1, 1) := by
  have h : identityCounts [('M', 'M'), ('S', 'S'), ('-', 'T'), ('K', 'K')] = (3, 0, 0) := by
    decide
  constructor <;> norm_num [compute_identity, h]

/-- C6 amended: "MSTK"/"MSTK" gives identity = similarity = 1; on
"MS-K"/"MSTK" the gap-versus-residue column stays in the denominator as a
mismatch, giving matches = 3 over effective length 4 and
identity = similarity = 3/4. -/
theorem c6_identity_scenarios :
    compute_identity ['M', 'S', 'T', 'K'] ['M', 'S', 'T', 'K'] = some (1, 1) ∧
    compute_identity ['M', 'S', '-', 'K'] ['M', 'S', 'T', 'K'] = some (3/4, 3/4) := by
  have h1 : identityCounts [('M', 'M'), ('S', 'S'), ('T', 'T'), ('K', 'K')] = (4, 0, 0) := by
    decide
  have h2 : identityCounts [('M', 'M'), ('S', 'S'), ('-', 'T'), ('K', 'K')] = (3, 0, 0) := by
    decide
  constructor <;> norm_num [compute_identity, h1, h2]

/-! ## Links and homology grouping (`assign_groups`) -/

/-- Embedding of a `Link` (align.py lines 545-555): one aligned gene pair
with identity/similarity scores. Genes are represented by their identifiers:
the spec guarantees identifiers are unique per entity kind, so Python object
identity on genes coincides with identifier equality. -/
structure Link where
  uid : String
  query : String
  target : String
  identity : ℚ
  similarity : ℚ
  deriving DecidableEq, Repr

/-- Update of the mutable per-gene `_group` field: the map sends a gene
identifier to the group index last written into its `_group` attribute. -/
def setGroup (m : String → Option Nat) (g : String) (i : Nat) : String → Option Nat :=
  fun x => if x = g then some i else m x

/-- Inner scan of `assign_groups` (align.py lines 63-71): walk the group
list with its index; at the first group containing either endpoint, append
the missing endpoint(s) to that group (query checked first, then target,
each appended gene getting `_group := i`) and stop scanning. Returns the
updated group list and the `_group` writes performed, or `none` when no
group contains either endpoint. -/
def scanGroups (q t : String) : Nat → List (List String) →
    Option (List (List String) × List (String × Nat))
  | _, [] => none
  | i, g :: gs =>
    if q ∈ g ∨ t ∈ g then
      let p1 := if q ∈ g then (g, ([] : List (String × Nat))) else (g ++ [q], [(q, i)])
      let p2 := if t ∈ p1.1 then (p1.1, ([] : List (String × Nat))) else (p1.1 ++ [t], [(t, i)])
      some (p2.1 :: gs, p1.2 ++ p2.2)
    else
      match scanGroups q t (i + 1) gs with
      | some (gs2, asg) => some (g :: gs2, asg)
      | none => none

/-- One iteration of the outer loop of `assign_groups` over the links:
links below the threshold are skipped; otherwise the first matching group
absorbs the missing endpoint, and if no group matches a fresh two-element
group is appended with both endpoints assigned its index. -/
def assignGroupsStep (threshold : ℚ) (st : List (List String) × (String → Option Nat))
    (link : Link) : List (List String) × (String → Option Nat) :=
  if link.identity < threshold then st
  else
    match scanGroups link.query link.target 0 st.1 with
    | some (gs, asg) => (gs, asg.foldl (fun m p => setGroup m p.1 p.2) st.2)
    | none =>
      let gs := st.1 ++ [[link.query, link.target]]
      let index := gs.length - 1
      (gs, setGroup (setGroup st.2 link.query index) link.target index)

/-- Embedding of `assign_groups` (align.py lines 56-76). The Python function
returns `None` and communicates purely through mutation; the model returns
the final `groups` list together with the final per-gene `_group`
assignment. The default threshold is 0.3. -/
def assign_groups (links : List Link) (threshold : ℚ := 3/10) :
    List (List String) × (String → Option Nat) :=
  links.foldl (assignGroupsStep threshold) ([], fun _ => none)

/-- The three links of the C1 scenario, in order:
(A-B, 0.5), (C-D, 0.5), (B-C, 0.5). -/
def c1Links : List Link :=
  [ ⟨"0", "A", "B", 1/2, 1/2⟩,
    ⟨"1", "C", "D", 1/2, 1/2⟩,
    ⟨"2", "B", "C", 1/2, 1/2⟩ ]

/-- C1 counterexample: at threshold 0.3 the links (A-B), (C-D), (B-C) do
NOT produce a single chained group {A,B,C,D}: `assign_groups` ends with the
two groups [A,B,C] and [C,D] (the third link adds C to the first group
containing B and stops scanning, leaving [C,D] un-merged). -/
theorem c1_single_group_counterexample :
    (assign_groups c1Links (3/10)).1 = [["A", "B", "C"], ["C", "D"]] ∧
    (assign_groups c1Links (3/10)).1.length ≠ 1 := by
  constructor <;>
    norm_num [assign_groups, assignGroupsStep, scanGroups, c1Links] <;> decide

/-- C1 amended: the scenario produces the two overlapping groups [A,B,C]
and [C,D] — neither a single {A,B,C,D} group nor two disjoint pairs — and
the final `_group` indices are A, B, C to 0 and D to 1 (C was moved from
group 1 to group 0 by the third link; D keeps index 1). -/
theorem c1_first_match_grouping :
    (assign_groups c1Links (3/10)).1 = [["A", "B", "C"], ["C", "D"]] ∧
    (assign_groups c1Links (3/10)).2 "A" = some 0 ∧
    (assign_groups c1Links (3/10)).2 "B" = some 0 ∧
    (assign_groups c1Links (3/10)).2 "C" = some 0 ∧
    (assign_groups c1Links (3/10)).2 "D" = some 1 := by
  refine ⟨?_, ?_, ?_, ?_, ?_⟩ <;>
    norm_num [assign_groups, assignGroupsStep, scanGroups, setGroup, c1Links] <;> decide

/-! ## Data model: Gene, Locus, Cluster, Alignment

Cluster/Locus/Gene are external data containers (clinker.classes, not under
src/); the fields below are the ones align.py consumes, per spec section 3:
identifier, name, ordered children, and the gene translation. Objects are
identified by their uid (spec: "identifiers unique per entity kind"). -/

structure Gene where
  uid : String
  name : String
  translation : String
  deriving DecidableEq

structure Locus where
  uid : String
  genes : List Gene
  deriving DecidableEq

structure Cluster where
  uid : String
  name : String
  loci : List Locus
  deriving DecidableEq

/-- Embedding of an `Alignment` (align.py lines 471-542): one cluster-pair
result holding the query/target Cluster objects and the link list. -/
structure Alignment where
  uid : String
  query : Cluster
  target : Cluster
  links : List Link
  deriving DecidableEq

/-! ## Python dict / defaultdict semantics -/

/-- Python `dict` lookup as an association list search (dicts built by the
model always have unique keys, so first-binding lookup is exact). -/
def dictGet (d : List (String × α)) (k : String) : Option α :=
  (d.find? (fun p => p.1 == k)).map (fun p => p.2)

/-- Python `dict.__setitem__`: replaces the binding in place when the key is
present (dicts preserve insertion order), otherwise appends a new binding. -/
def dictSet (d : List (String × α)) (k : String) (v : α) : List (String × α) :=
  match d with
  | [] => [(k, v)]
  | p :: rest => if p.1 == k then (k, v) :: rest else p :: dictSet rest k v

/-- Python `defaultdict(dict).__getitem__` on `_alignment_indices`: returns
the inner dict for the key, INSERTING a fresh empty inner dict when the key
is absent — a mutation performed even by pure-looking reads. Returns the
inner dict and the (possibly grown) outer dict. -/
def ddGet (d : List (String × List (String × Nat))) (k : String) :
    List (String × Nat) × List (String × List (String × Nat)) :=
  match dictGet d k with
  | some inner => (inner, d)
  | none => ([], d ++ [(k, [])])

/-- Python `d[a][b] = v` on `_alignment_indices`: outer defaultdict access
(inserting an empty inner dict for `a` when absent) followed by an inner
`__setitem__`. -/
def idxSet (d : List (String × List (String × Nat))) (a b : String) (v : Nat) :
    List (String × List (String × Nat)) :=
  let p := ddGet d a
  dictSet p.2 a (dictSet p.1 b v)

/-- Pure double lookup `_alignment_indices[a].get(b)` (no defaultdict
mutation), used to state invariants and hypotheses. -/
def idxFind (d : List (String × List (String × Nat))) (a b : String) : Option Nat :=
  match dictGet d a with
  | some inner => dictGet inner b
  | none => none

/-! ## Globaligner store -/

/-- Embedding of the `Globaligner` store state (align.py lines 161-177):
`clusters` is the insertion-ordered cluster dict, `alignments` the stored
alignment list, `idx` the `_alignment_indices` defaultdict (outer keys
tracked explicitly, because `defaultdict.__getitem__` inserts missing outer
keys), `names` the `_cluster_names` dict. The `_genes`/`_loci`/
`_alignments`/`_link` lookup dicts are write-only for every operation the
claims touch and are omitted; the BioPython aligner configuration is an
external collaborator, out of scope. -/
structure GA where
  clusters : List (String × Cluster)
  alignments : List Alignment
  idx : List (String × List (String × Nat))
  names : List (Nat × (String × String))
  deriving DecidableEq

/-- A freshly constructed `Globaligner()`. -/
def GA.empty : GA := ⟨[], [], [], []⟩

/-- Python `dict.__setitem__` for the Nat-keyed `_cluster_names` dict. -/
def namesSet (d : List (Nat × (String × String))) (k : Nat) (v : String × String) :
    List (Nat × (String × String)) :=
  match d with
  | [] => [(k, v)]
  | p :: rest => if p.1 == k then (k, v) :: rest else p :: namesSet rest k v

/-- Embedding of `add_clusters` (align.py lines 305-318) restricted to the
state the claims read: each cluster is indexed by uid in the
insertion-ordered `clusters` dict (re-adding a stored uid keeps its
position). The `_loci`/`_genes` lookups it also fills are omitted
(write-only here) and the `isinstance` check cannot fail in the typed
embedding. -/
def add_clusters (g : GA) (cs : List Cluster) : GA :=
  { g with clusters := cs.foldl (fun d c => dictSet d c.uid c) g.clusters }

/-- The index chosen by `add_alignment`s `if index:` branch (Python
truthiness: `None` and `0` both take the append branch). -/
def newIndex (existing : Option Nat) (len : Nat) : Nat :=
  match existing with
  | some n => if n ≠ 0 then n else len
  | none => len

/-- The alignment list after `add_alignment`s `if index:` branch: in-place
overwrite for a truthy existing index, append otherwise. -/
def newAlignments (existing : Option Nat) (alns : List Alignment) (aln : Alignment) :
    List Alignment :=
  match existing with
  | some n => if n ≠ 0 then alns.set n aln else alns ++ [aln]
  | none => alns ++ [aln]

/-- Embedding of `add_alignment` (align.py lines 370-395). Registers the two
clusters; reads the existing index with
`self._alignment_indices[q.uid].get(t.uid)` (a defaultdict access that
inserts an outer entry for `q.uid` when missing); then follows Python
truthiness: `if index:` takes the overwrite branch only when the retrieved
index is non-`None` AND non-zero, otherwise the alignment is appended.
Finally both directed index entries and the `_cluster_names` entry are set
to the chosen index. In the overwrite branch `self.alignments[index] =
alignment` is modelled by `List.set` (total where Python would raise
`IndexError` out of range; the `idxInRange` reachability invariant shows
stored indices are always in range, so the difference is never exercised). -/
def add_alignment (g : GA) (aln : Alignment) : GA :=
  let q := aln.query
  let t := aln.target
  let g1 := add_clusters g [q, t]
  let p := ddGet g1.idx q.uid
  let index0 := dictGet p.1 t.uid
  let index := newIndex index0 g1.alignments.length
  let d2 := idxSet p.2 q.uid t.uid index
  let d3 := idxSet d2 t.uid q.uid index
  { clusters := g1.clusters,
    alignments := newAlignments index0 g1.alignments aln,
    idx := d3,
    names := namesSet g1.names index (q.uid, t.uid) }

/-- Embedding of `get_alignment` (align.py lines 397-407):
`self._alignment_indices[one][two]` is an outer defaultdict access (which
inserts an empty entry for `one` when absent — a mutation that survives the
failure) followed by a plain inner dict lookup raising `KeyError` when the
pair is unindexed; `self.alignments[index]` raises `IndexError` out of
range. Returns the Python result together with the post-call state. -/
def get_alignment (g : GA) (one two : String) : Except String Alignment × GA :=
  let p := ddGet g.idx one
  let g1 : GA := { g with idx := p.2 }
  match dictGet p.1 two with
  | none => (Except.error "KeyError", g1)
  | some n =>
    match g1.alignments[n]? with
    | none => (Except.error "IndexError", g1)
    | some aln => (Except.ok aln, g1)

/-- One externally visible store operation, for reachability statements. -/
inductive Op where
  | add (aln : Alignment)
  | get (one two : String)

/-- Applies one operation to the store, keeping the state (a failed `get`s
return value is discarded but its defaultdict side effect is kept). -/
def applyOp (g : GA) : Op → GA
  | Op.add aln => add_alignment g aln
  | Op.get one two => (get_alignment g one two).2

/-- The store reached from a fresh `Globaligner()` by a sequence of
`add_alignment` / `get_alignment` calls. -/
def run (ops : List Op) : GA := ops.foldl applyOp GA.empty

/-- Index symmetry: the bidirectional `_alignment_indices` entries agree. -/
def SymIdx (g : GA) : Prop := ∀ a b, idxFind g.idx a b = idxFind g.idx b a

/-- Every stored alignment index points inside the alignment list. -/
def IdxInRange (g : GA) : Prop :=
  ∀ a b n, idxFind g.idx a b = some n → n < g.alignments.length

/-! ## Dictionary lemmas -/

theorem dictGet_cons (p : String × α) (rest : List (String × α)) (k : String) :
    dictGet (p :: rest) k = if p.1 = k then some p.2 else dictGet rest k := by
  by_cases h : p.1 = k <;> simp [dictGet, List.find?_cons, h]

theorem dictGet_dictSet (d : List (String × α)) (k k' : String) (v : α) :
    dictGet (dictSet d k v) k' = if k' = k then some v else dictGet d k' := by
  induction d with
  | nil =>
    simp only [dictSet]
    rw [dictGet_cons]
    by_cases h : k' = k
    · simp [h]
    · have h2 : ¬(k = k') := fun hh => h hh.symm
      simp [dictGet, h, h2]
  | cons p rest ih =>
    simp only [dictSet]
    by_cases hp : p.1 = k
    · rw [if_pos (beq_iff_eq.mpr hp)]
      rw [dictGet_cons, dictGet_cons]
      by_cases h : k' = k
      · simp [h]
      · have h2 : ¬(k = k') := fun hh => h hh.symm
        have h3 : ¬(p.1 = k') := hp ▸ h2
        simp [h, h2, h3]
    · rw [if_neg (by simpa using hp)]
      rw [dictGet_cons, dictGet_cons, ih]
      by_cases h : k' = k
      · simp [h, hp]
      · simp [h]

theorem ddGet_fst (d : List (String × List (String × Nat))) (k : String) :
    (ddGet d k).1 = (dictGet d k).getD [] := by
  unfold ddGet
  cases h : dictGet d k <;> simp [h]

theorem dictGet_append (d e : List (String × α)) (k : String) :
    dictGet (d ++ e) k = (dictGet d k).or (dictGet e k) := by
  simp only [dictGet, List.find?_append]
  cases h : List.find? (fun p => p.1 == k) d <;> simp [h, Option.or]

theorem dictGet_ddGet_snd (d : List (String × List (String × Nat))) (k k' : String) :
    dictGet (ddGet d k).2 k' = if k' = k then some (ddGet d k).1 else dictGet d k' := by
  unfold ddGet
  cases h : dictGet d k with
  | some inner =>
    by_cases hk : k' = k <;> simp [h, hk]
  | none =>
    by_cases hk : k' = k
    · subst hk
      rw [dictGet_append, h]
      simp [dictGet_cons, dictGet]
    · have h2 : ¬(k = k') := fun hh => hk hh.symm
      rw [dictGet_append]
      simp [hk, dictGet_cons, dictGet, h2]

theorem idxFind_idxSet (d : List (String × List (String × Nat))) (a b : String)
    (v : Nat) (x y : String) :
    idxFind (idxSet d a b v) x y = if x = a ∧ y = b then some v else idxFind d x y := by
  unfold idxSet idxFind
  rw [dictGet_dictSet]
  by_cases hx : x = a
  · simp only [hx, if_true, true_and]
    rw [dictGet_dictSet]
    by_cases hy : y = b
    · simp [hy]
    · simp only [hy, if_false]
      rw [ddGet_fst]
      cases h : dictGet d a <;> simp [h, dictGet]
  · simp only [hx, if_false, false_and]
    rw [dictGet_ddGet_snd]
    simp [hx]

theorem idxFind_ddGet (d : List (String × List (String × Nat))) (k x y : String) :
    idxFind (ddGet d k).2 x y = idxFind d x y := by
  unfold idxFind
  rw [dictGet_ddGet_snd]
  by_cases hx : x = k
  · subst hx
    rw [ddGet_fst]
    cases h : dictGet d x <;> simp [h, dictGet]
  · simp [hx]

/-! ## Store invariants -/

/-- The alignment index recorded by `add_alignment` for its cluster pair. -/
def addIndex (g : GA) (aln : Alignment) : Nat :=
  newIndex (idxFind g.idx aln.query.uid aln.target.uid) g.alignments.length

theorem ddGet_fst_dictGet (d : List (String × List (String × Nat))) (q t : String) :
    dictGet (ddGet d q).1 t = idxFind d q t := by
  rw [ddGet_fst]
  unfold idxFind
  cases h : dictGet d q with
  | none => simp [dictGet]
  | some inner => rfl

theorem add_alignment_idx (g : GA) (aln : Alignment) :
    (add_alignment g aln).idx =
      idxSet (idxSet (ddGet g.idx aln.query.uid).2 aln.query.uid aln.target.uid
        (addIndex g aln)) aln.target.uid aln.query.uid (addIndex g aln) ∧
    (add_alignment g aln).alignments =
      newAlignments (idxFind g.idx aln.query.uid aln.target.uid) g.alignments aln := by
  unfold add_alignment addIndex add_clusters
  simp only [ddGet_fst_dictGet]
  exact ⟨trivial, trivial⟩

theorem idxFind_add_alignment (g : GA) (aln : Alignment) (x y : String) :
    idxFind (add_alignment g aln).idx x y =
      if (x = aln.target.uid ∧ y = aln.query.uid) ∨ (x = aln.query.uid ∧ y = aln.target.uid)
      then some (addIndex g aln) else idxFind g.idx x y := by
  rw [(add_alignment_idx g aln).1, idxFind_idxSet, idxFind_idxSet, idxFind_ddGet]
  by_cases h1 : x = aln.target.uid ∧ y = aln.query.uid
  · simp [h1]
  · by_cases h2 : x = aln.query.uid ∧ y = aln.target.uid
    · simp [h1, h2]
    · simp [h1, h2]

theorem add_alignment_sym (g : GA) (aln : Alignment) (hs : SymIdx g) :
    SymIdx (add_alignment g aln) := by
  intro a b
  rw [idxFind_add_alignment, idxFind_add_alignment]
  by_cases h : (a = aln.target.uid ∧ b = aln.query.uid) ∨
      (a = aln.query.uid ∧ b = aln.target.uid)
  · have h2 : (b = aln.target.uid ∧ a = aln.query.uid) ∨
        (b = aln.query.uid ∧ a = aln.target.uid) := by tauto
    simp [h, h2]
  · have h2 : ¬((b = aln.target.uid ∧ a = aln.query.uid) ∨
        (b = aln.query.uid ∧ a = aln.target.uid)) := by tauto
    simp [h, h2, hs a b]

theorem newAlignments_length (e : Option Nat) (alns : List Alignment) (aln : Alignment) :
    alns.length ≤ (newAlignments e alns aln).length := by
  cases e with
  | none => simp [newAlignments]
  | some n =>
    by_cases hn : n ≠ 0 <;> simp [newAlignments, hn]

theorem add_alignment_inrange (g : GA) (aln : Alignment) (hr : IdxInRange g) :
    IdxInRange (add_alignment g aln) := by
  intro a b n h
  rw [idxFind_add_alignment] at h
  rw [(add_alignment_idx g aln).2]
  by_cases hc : (a = aln.target.uid ∧ b = aln.query.uid) ∨
      (a = aln.query.uid ∧ b = aln.target.uid)
  · rw [if_pos hc] at h
    have hn : n = addIndex g aln := by
      injection h.symm
    subst hn
    unfold addIndex newIndex newAlignments
    cases he : idxFind g.idx aln.query.uid aln.target.uid with
    | none => simp
    | some m =>
      by_cases hm : m ≠ 0
      · have := hr _ _ _ he
        simp [hm, this]
      · simp [hm]
  · rw [if_neg hc] at h
    have := hr _ _ _ h
    have hle := newAlignments_length (idxFind g.idx aln.query.uid aln.target.uid)
      g.alignments aln
    omega

theorem get_alignment_snd (g : GA) (one two : String) :
    (get_alignment g one two).2 = { g with idx := (ddGet g.idx one).2 } := by
  unfold get_alignment
  cases h : dictGet (ddGet g.idx one).1 two with
  | none => simp [h]
  | some n =>
    cases h2 : g.alignments[n]? <;> simp [h, h2]

theorem get_alignment_preserves (g : GA) (one two : String)
    (hs : SymIdx g) (hr : IdxInRange g) :
    SymIdx ((get_alignment g one two).2) ∧ IdxInRange ((get_alignment g one two).2) := by
  rw [get_alignment_snd]
  constructor
  · intro a b
    show idxFind (ddGet g.idx one).2 a b = idxFind (ddGet g.idx one).2 b a
    rw [idxFind_ddGet, idxFind_ddGet]
    exact hs a b
  · intro a b n h
    replace h : idxFind (ddGet g.idx one).2 a b = some n := h
    rw [idxFind_ddGet] at h
    exact hr a b n h

theorem applyOp_preserves (g : GA) (op : Op) (hs : SymIdx g) (hr : IdxInRange g) :
    SymIdx (applyOp g op) ∧ IdxInRange (applyOp g op) := by
  cases op with
  | add aln => exact ⟨add_alignment_sym g aln hs, add_alignment_inrange g aln hr⟩
  | get one two => exact get_alignment_preserves g one two hs hr

theorem foldl_preserves (ops : List Op) (g : GA) (hs : SymIdx g) (hr : IdxInRange g) :
    SymIdx (ops.foldl applyOp g) ∧ IdxInRange (ops.foldl applyOp g) := by
  induction ops generalizing g with
  | nil => exact ⟨hs, hr⟩
  | cons op rest ih =>
    obtain ⟨hs2, hr2⟩ := applyOp_preserves g op hs hr
    exact ih (applyOp g op) hs2 hr2

theorem run_inv (ops : List Op) : SymIdx (run ops) ∧ IdxInRange (run ops) :=
  foldl_preserves ops GA.empty (fun _ _ => rfl)
    (fun a b n h => by simp [idxFind, dictGet, GA.empty] at h)

theorem get_alignment_found (g : GA) (x y : String) (m : Nat) (aln : Alignment)
    (h : idxFind g.idx x y = some m) (ha : g.alignments[m]? = some aln) :
    (get_alignment g x y).1 = Except.ok aln := by
  cases ho : dictGet g.idx x with
  | none =>
    have hnone : idxFind g.idx x y = none := by unfold idxFind; rw [ho]
    rw [hnone] at h
    exact absurd h (by simp)
  | some inner =>
    have hiv : dictGet inner y = some m := by
      have h2 := h
      unfold idxFind at h2
      rw [ho] at h2
      exact h2
    have hdd : ddGet g.idx x = (inner, g.idx) := by unfold ddGet; rw [ho]
    unfold get_alignment
    rw [hdd]
    simp [hiv, ha]

/-- C8: in every store reachable by `add_alignment`/`get_alignment` calls,
if a cluster-id pair (a, b) is indexed then `get_alignment a b` and
`get_alignment b a` both succeed and return the same stored Alignment. -/
theorem c8_get_alignment_bidirectional (ops : List Op) (a b : String) (n : Nat)
    (h : idxFind (run ops).idx a b = some n) :
    ∃ aln, (get_alignment (run ops) a b).1 = Except.ok aln ∧
      (get_alignment (run ops) b a).1 = Except.ok aln := by
  obtain ⟨hs, hr⟩ := run_inv ops
  have hlt : n < (run ops).alignments.length := hr a b n h
  have ha : (run ops).alignments[n]? = some ((run ops).alignments.get ⟨n, hlt⟩) := by
    rw [List.getElem?_eq_getElem hlt]
    rfl
  refine ⟨(run ops).alignments.get ⟨n, hlt⟩, ?_, ?_⟩
  · exact get_alignment_found _ a b n _ h ha
  · exact get_alignment_found _ b a n _ ((hs a b).symm.trans h) ha

/-- Concrete one-alignment store for the C8 witness. -/
def c8aln : Alignment := ⟨"al0", ⟨"c1", "c1", []⟩, ⟨"c2", "c2", []⟩, []⟩

/-- Witness for C8 on a store holding one alignment between c1 and c2. -/
theorem c8_get_alignment_bidirectional_witness :
    ∃ aln, (get_alignment (run [Op.add c8aln]) "c1" "c2").1 = Except.ok aln ∧
      (get_alignment (run [Op.add c8aln]) "c2" "c1").1 = Except.ok aln :=
  c8_get_alignment_bidirectional [Op.add c8aln] "c1" "c2" 0 (by decide)

/-- The two C4 alignments: same unordered cluster pair (c1, c2). -/
def c4aln1 : Alignment := ⟨"a1", ⟨"c1", "c1", []⟩, ⟨"c2", "c2", []⟩, []⟩

def c4aln2 : Alignment := ⟨"a2", ⟨"c1", "c1", []⟩, ⟨"c2", "c2", []⟩, []⟩

/-- C4 failing input: adding a second alignment for the same unordered
cluster pair when the first sits at list position 0. Python's `if index:`
treats the retrieved index 0 as falsy, so instead of overwriting in place
the store appends a duplicate: both alignments remain stored for the pair
(c1, c2) and the index entries move to position 1. -/
theorem c4_truthiness_duplicate_alignment :
    (run [Op.add c4aln1, Op.add c4aln2]).alignments = [c4aln1, c4aln2] ∧
    c4aln1.query.uid = c4aln2.query.uid ∧ c4aln1.target.uid = c4aln2.target.uid ∧
    idxFind (run [Op.add c4aln1, Op.add c4aln2]).idx "c1" "c2" = some 1 := by
  refine ⟨?_, rfl, rfl, ?_⟩ <;> decide

/-- C10 amended: a `get_alignment` call on an unindexed pair always raises
`KeyError`; it mutates `_alignment_indices` (inserting an empty entry for
the first argument) exactly when the first argument is not yet an outer
key, and leaves the store unchanged when the first argument is already an
outer key. -/
theorem c10_get_alignment_failure_mutation (g : GA) (one two : String)
    (h : idxFind g.idx one two = none) :
    (get_alignment g one two).1 = Except.error "KeyError" ∧
    (dictGet g.idx one = none →
      (get_alignment g one two).2.idx = g.idx ++ [(one, [])] ∧
      (get_alignment g one two).2 ≠ g) ∧
    (∀ inner, dictGet g.idx one = some inner → (get_alignment g one two).2 = g) := by
  cases ho : dictGet g.idx one with
  | none =>
    have hdd : ddGet g.idx one = ([], g.idx ++ [(one, [])]) := by unfold ddGet; rw [ho]
    have hget : get_alignment g one two =
        (Except.error "KeyError", { g with idx := g.idx ++ [(one, [])] }) := by
      unfold get_alignment
      rw [hdd]
      rfl
    refine ⟨by rw [hget], fun _ => ⟨by rw [hget], ?_⟩,
      fun inner hi => Option.noConfusion hi⟩
    rw [hget]
    intro he
    have h2 := congrArg GA.idx he
    simp only at h2
    have h3 := congrArg List.length h2
    simp at h3
  | some inner =>
    have h2 : dictGet inner two = none := by
      have h3 := h
      unfold idxFind at h3
      rw [ho] at h3
      exact h3
    have hdd : ddGet g.idx one = (inner, g.idx) := by unfold ddGet; rw [ho]
    have hget : get_alignment g one two = (Except.error "KeyError", { g with idx := g.idx }) := by
      unfold get_alignment
      rw [hdd]
      simp [h2]
    refine ⟨by rw [hget], fun hn => Option.noConfusion hn,
      fun inner2 _ => ?_⟩
    rw [hget]

/-- Witness for the amended C10 on a fresh `Globaligner()`: the failing
lookup raises `KeyError` and inserts the empty outer entry, changing the
state. -/
theorem c10_get_alignment_failure_mutation_witness :
    (get_alignment GA.empty "a" "b").1 = Except.error "KeyError" ∧
    (dictGet GA.empty.idx "a" = none →
      (get_alignment GA.empty "a" "b").2.idx = GA.empty.idx ++ [("a", [])] ∧
      (get_alignment GA.empty "a" "b").2 ≠ GA.empty) ∧
    (∀ inner, dictGet GA.empty.idx "a" = some inner →
      (get_alignment GA.empty "a" "b").2 = GA.empty) :=
  c10_get_alignment_failure_mutation GA.empty "a" "b" (by decide)

/-- The C10 counterexample state: one failed lookup has already inserted the
outer entry for "a" into the defaultdict. -/
def c10g : GA := run [Op.get "a" "b"]

/-- C10 counterexample: a second failing `get_alignment "a" "b"` on that
state raises `KeyError` but leaves the store COMPLETELY unchanged ("a" is
already an outer key, so the defaultdict inserts nothing), refuting the
unconditional "the state is not unchanged on error". -/
theorem c10_unchanged_state_counterexample :
    (get_alignment c10g "a" "b").1 = Except.error "KeyError" ∧
    (get_alignment c10g "a" "b").2 = c10g := by
  exact ⟨rfl, rfl⟩

/-! ## Synteny scorer (`get_pairs`, `compare_pairs`, `synteny`) -/

/-- One step of `get_pairs`s outer loop: a locus with `n` genes contributes
`n - 1` window positions (`total = len(locus.genes) - 1`, `range(total)`),
each materialising one fresh generator object. -/
def getPairsStep (acc : List Nat × Nat) (locus : Locus) : List Nat × Nat :=
  (acc.1 ++ (List.range (locus.genes.length - 1)).map (fun j => acc.2 + j),
    acc.2 + (locus.genes.length - 1))

/-- Embedding of `get_pairs` (align.py lines 79-88). The Python body is
`pairs.extend((gene._group for gene in locus.genes[i:i+2]) for i in
range(total))`: the inner parentheses build a GENERATOR object per window
position, not a tuple, so `pairs` is a list of generator objects whose
bodies are never run. Generators compare and hash by object identity, so
each is modelled by a fresh allocation id: given the next free id `ctr`,
returns the ids listed in order and the next free id. The `_group` values
the generators would yield are irrelevant: no consumer ever iterates them. -/
def get_pairs (cluster : Cluster) (ctr : Nat) : List Nat × Nat :=
  cluster.loci.foldl getPairsStep ([], ctr)

/-- Embedding of `compare_pairs` (align.py lines 91-101): for each distinct
element of `one` also present in `two` (`set(one).intersection(two)`,
membership by generator object identity = allocation id), add the minimum
multiplicity. -/
def compare_pairs (one two : List Nat) : Nat :=
  (one.dedup.filter (fun p => p ∈ two)).foldl
    (fun total p => total + min (one.count p) (two.count p)) 0

theorem get_pairs_aux (loci : List Locus) (acc : List Nat × Nat)
    (h : ∀ x ∈ acc.1, x < acc.2) :
    (∀ x ∈ (loci.foldl getPairsStep acc).1, x < (loci.foldl getPairsStep acc).2) ∧
      acc.2 ≤ (loci.foldl getPairsStep acc).2 ∧
      (∀ x ∈ (loci.foldl getPairsStep acc).1, x ∈ acc.1 ∨ acc.2 ≤ x) := by
  induction loci generalizing acc with
  | nil => exact ⟨h, le_refl _, fun x hx => Or.inl hx⟩
  | cons l rest ih =>
    simp only [List.foldl_cons]
    have hstep : ∀ x ∈ (getPairsStep acc l).1, x < (getPairsStep acc l).2 := by
      intro x hx
      simp only [getPairsStep, List.mem_append, List.mem_map, List.mem_range] at hx
      rcases hx with hx | ⟨j, hj, rfl⟩
      · have := h x hx; simp only [getPairsStep]; omega
      · simp only [getPairsStep]; omega
    obtain ⟨ih1, ih2, ih3⟩ := ih (getPairsStep acc l) hstep
    have hmono : acc.2 ≤ (getPairsStep acc l).2 := by
      simp only [getPairsStep]; omega
    refine ⟨ih1, le_trans hmono ih2, fun x hx => ?_⟩
    rcases ih3 x hx with hx2 | hx2
    · simp only [getPairsStep, List.mem_append, List.mem_map, List.mem_range] at hx2
      rcases hx2 with hx2 | ⟨j, hj, rfl⟩
      · exact Or.inl hx2
      · exact Or.inr (Nat.le_add_right _ _)
    · exact Or.inr (le_trans hmono hx2)

theorem get_pairs_upper (c : Cluster) (ctr : Nat) :
    ∀ x ∈ (get_pairs c ctr).1, x < (get_pairs c ctr).2 :=
  (get_pairs_aux c.loci ([], ctr) (fun x hx => absurd hx (List.not_mem_nil x))).1

theorem get_pairs_lower (c : Cluster) (ctr : Nat) :
    ∀ x ∈ (get_pairs c ctr).1, ctr ≤ x := by
  intro x hx
  rcases (get_pairs_aux c.loci ([], ctr)
    (fun x hx => absurd hx (List.not_mem_nil x))).2.2 x hx with h | h
  · exact absurd h (List.not_mem_nil x)
  · exact h

theorem compare_pairs_disjoint (one two : List Nat) (h : ∀ x ∈ one, x ∉ two) :
    compare_pairs one two = 0 := by
  unfold compare_pairs
  have hf : one.dedup.filter (fun p => decide (p ∈ two)) = [] := by
    refine List.filter_eq_nil_iff.mpr (fun a ha => ?_)
    simpa using h a (List.mem_dedup.mp ha)
  rw [hf]
  rfl

/-- Embedding of `Globaligner.synteny` (align.py lines 409-432): fetch the
stored alignment via `get_alignment` (its defaultdict side effect and
failure propagate); `homology` is the sum of link identities; run
`assign_groups` at its default threshold (the `_group` writes are dead
here: their only readers are the generator bodies `get_pairs` never runs);
fetch the two clusters from the cluster dict (`KeyError` if absent); and
return `homology + i * contiguity`. `ctr` seeds the fresh generator ids,
threaded through the two `get_pairs` calls. -/
def synteny (g : GA) (one two : String) (i : ℚ) (ctr : Nat) : Except String ℚ × GA :=
  match get_alignment g one two with
  | (Except.error e, g1) => (Except.error e, g1)
  | (Except.ok alignment, g1) =>
    let homology : ℚ := (alignment.links.map Link.identity).sum
    let _grps := assign_groups alignment.links
    match dictGet g1.clusters one, dictGet g1.clusters two with
    | some one_cluster, some two_cluster =>
      let one_pairs := get_pairs one_cluster ctr
      let two_pairs := get_pairs two_cluster one_pairs.2
      let contiguity : ℚ := ((compare_pairs one_pairs.1 two_pairs.1 : Nat) : ℚ)
      (Except.ok (homology + i * contiguity), g1)
    | _, _ => (Except.error "KeyError", g1)

theorem get_alignment_stored (g : GA) (one two : String) (n : Nat) (aln : Alignment)
    (h : idxFind g.idx one two = some n) (ha : g.alignments[n]? = some aln) :
    get_alignment g one two = (Except.ok aln, g) := by
  cases ho : dictGet g.idx one with
  | none =>
    have hnone : idxFind g.idx one two = none := by unfold idxFind; rw [ho]
    rw [hnone] at h
    exact absurd h (by simp)
  | some inner =>
    have hiv : dictGet inner two = some n := by
      have h2 := h
      unfold idxFind at h2
      rw [ho] at h2
      exact h2
    have hdd : ddGet g.idx one = (inner, g.idx) := by unfold ddGet; rw [ho]
    unfold get_alignment
    rw [hdd]
    simp [hiv, ha]

/-- On a stored pair, `synteny` returns exactly the homology sum: the two
`get_pairs` calls produce disjoint generator ids, so the identity-based set
intersection in `compare_pairs` is empty and the contiguity term is zero. -/
theorem synteny_stored (g : GA) (one two : String) (w : ℚ) (ctr : Nat)
    (n : Nat) (aln : Alignment) (c1 c2 : Cluster)
    (hidx : idxFind g.idx one two = some n)
    (haln : g.alignments[n]? = some aln)
    (hc1 : dictGet g.clusters one = some c1)
    (hc2 : dictGet g.clusters two = some c2) :
    (synteny g one two w ctr).1 = Except.ok ((aln.links.map Link.identity).sum) := by
  have hzero : compare_pairs (get_pairs c1 ctr).1
      (get_pairs c2 (get_pairs c1 ctr).2).1 = 0 := by
    apply compare_pairs_disjoint
    intro x hx hx2
    have h1 := get_pairs_upper c1 ctr x hx
    have h2 := get_pairs_lower c2 (get_pairs c1 ctr).2 x hx2
    omega
  unfold synteny
  rw [get_alignment_stored g one two n aln hidx haln]
  simp [hc1, hc2, hzero]

/-- C2: for every stored cluster pair and every weight, `synteny` returns
exactly the sum of link identities of the stored alignment: the contiguity
term is always zero, because `get_pairs` emits per-window generator objects
and `compare_pairs` intersects them by object identity. -/
theorem c2_synteny_equals_homology (g : GA) (one two : String) (w : ℚ) (ctr : Nat)
    (n : Nat) (aln : Alignment) (c1 c2 : Cluster)
    (hidx : idxFind g.idx one two = some n)
    (haln : g.alignments[n]? = some aln)
    (hc1 : dictGet g.clusters one = some c1)
    (hc2 : dictGet g.clusters two = some c2) :
    (synteny g one two w ctr).1 = Except.ok ((aln.links.map Link.identity).sum) :=
  synteny_stored g one two w ctr n aln c1 c2 hidx haln hc1 hc2

/-- Concrete store for the C2/C3 witnesses: two two-gene clusters and one
stored alignment with two full-identity links. -/
def c2c1 : Cluster := ⟨"c1", "c1", [⟨"l1", [⟨"g1", "g1", "M"⟩, ⟨"g2", "g2", "S"⟩]⟩]⟩

def c2c2 : Cluster := ⟨"c2", "c2", [⟨"l2", [⟨"g3", "g3", "M"⟩, ⟨"g4", "g4", "S"⟩]⟩]⟩

def c2aln : Alignment :=
  ⟨"a9", c2c1, c2c2, [⟨"k1", "g1", "g3", 1, 1⟩, ⟨"k2", "g2", "g4", 1, 1⟩]⟩

def c2store : GA := run [Op.add c2aln]

/-- Witness for C2 on the concrete store (weight 7, generator ids from 0). -/
theorem c2_synteny_equals_homology_witness :
    (synteny c2store "c1" "c2" 7 0).1 =
      Except.ok ((c2aln.links.map Link.identity).sum) :=
  c2_synteny_equals_homology c2store "c1" "c2" 7 0 0 c2aln c2c1 c2c2 rfl rfl rfl rfl

/-! ## Synteny matrix (`Globaligner.matrix`) -/

/-- Uid of the k-th stored cluster in iteration order. -/
def uidAt (g : GA) (k : Nat) : String := (g.clusters.map Prod.fst).getD k ""

/-- Embedding of the entry computation of `Globaligner.matrix` (align.py
lines 434-457): `np.zeros` leaves the diagonal at 0 (the loop `continue`s
on i = j); every other entry is `self.synteny(one, two, i=i)`. NOTE: the
loop variable `i` of `for i, one in enumerate(self.clusters)` SHADOWS the
weight parameter `i`, so the ROW INDEX is passed as the weight and the
caller-supplied weight `w` is unused here, exactly as in the source;
`c3_matrix_entries` shows the entry nevertheless equals the synteny score
at the caller-supplied weight, because the contiguity term the weight
multiplies is always zero. On a stored pair `synteny` leaves the store
unchanged (`get_alignment` inserts nothing when the outer key exists), so
each entry of the sequential loop is computed against the same state. -/
def matrix_entry (g : GA) (w : ℚ) (i j : Nat) (ctr : Nat) : Except String ℚ :=
  if i = j then Except.ok 0
  else (synteny g (uidAt g i) (uidAt g j) ((i : Nat) : ℚ) ctr).1

/-- C3: over stored clusters with every distinct pair aligned, the matrix
has zero diagonal and every off-diagonal entry (i, j) equals
`synteny(cluster_i, cluster_j, w)` at the caller-supplied weight `w` (and
at any generator seed). -/
theorem c3_matrix_entries (g : GA) (w : ℚ) (i j : Nat) (ctr ctr2 : Nat)
    (hi : i < g.clusters.length) (hj : j < g.clusters.length)
    (hstored : i ≠ j → ∃ n aln c1 c2,
      idxFind g.idx (uidAt g i) (uidAt g j) = some n ∧
      g.alignments[n]? = some aln ∧
      dictGet g.clusters (uidAt g i) = some c1 ∧
      dictGet g.clusters (uidAt g j) = some c2) :
    matrix_entry g w i j ctr =
      if i = j then Except.ok 0
      else (synteny g (uidAt g i) (uidAt g j) w ctr2).1 := by
  by_cases hij : i = j
  · simp [matrix_entry, hij]
  · obtain ⟨n, aln, c1, c2, h1, h2, h3, h4⟩ := hstored hij
    rw [if_neg hij]
    unfold matrix_entry
    rw [if_neg hij]
    rw [synteny_stored g _ _ _ ctr n aln c1 c2 h1 h2 h3 h4,
      synteny_stored g _ _ _ ctr2 n aln c1 c2 h1 h2 h3 h4]

/-- Witness for C3 on the concrete two-cluster store, entry (0, 1),
caller weight 5, generator seeds 0 and 3. -/
theorem c3_matrix_entries_witness :
    matrix_entry c2store 5 0 1 0 =
      if (0 : Nat) = 1 then Except.ok 0
      else (synteny c2store (uidAt c2store 0) (uidAt c2store 1) 5 3).1 :=
  c3_matrix_entries c2store 5 0 1 0 3 (by decide) (by decide)
    (fun _ => ⟨0, c2aln, c2c1, c2c2, rfl, rfl, rfl, rfl⟩)

/-! ## Serialization (`to_dict` / `from_dict`) -/

/-- Serialised Cluster payload (uids_only): own identifier and name, child
loci as bare identifiers. -/
structure SCluster where
  uid : String
  name : String
  loci : List String
  deriving DecidableEq

/-- Serialised Locus payload (uids_only): own identifier, child genes as
bare identifiers. -/
structure SLocus where
  uid : String
  genes : List String
  deriving DecidableEq

/-- Serialised Alignment payload (align.py lines 486-492, uids_only). -/
structure SAln where
  uid : String
  query : String
  target : String
  links : List String
  deriving DecidableEq

/-- Serialised Link payload (align.py lines 563-569, uids_only). NOTE it
carries no `uid` key, so `Link.from_dict` gives the restored link a fresh
uid from the global counter. -/
structure SLink where
  query : String
  target : String
  identity : ℚ
  similarity : ℚ
  deriving DecidableEq

/-- The `to_dict` schema (align.py lines 182-191): order list plus five
identifier-keyed maps. -/
structure Serial where
  order : List String
  clusters : List (String × SCluster)
  loci : List (String × SLocus)
  genes : List (String × Gene)
  alignments : List (String × SAln)
  links : List (String × SLink)
  deriving DecidableEq

/-- Modelled from the spec: `Cluster.to_dict(uids_only=True)` of
clinker.classes (not under src/) — spec 4.8: each entity serialises its own
identifier and fields, child references as bare identifiers. -/
def clusterToDict (c : Cluster) : SCluster := ⟨c.uid, c.name, c.loci.map Locus.uid⟩

/-- Modelled from the spec: `Locus.to_dict(uids_only=True)` of
clinker.classes (not under src/). -/
def locusToDict (l : Locus) : SLocus := ⟨l.uid, l.genes.map Gene.uid⟩

/-- `Alignment.to_dict(uids_only=True)` (align.py lines 486-492). -/
def alnToDict (a : Alignment) : SAln :=
  ⟨a.uid, a.query.uid, a.target.uid, a.links.map Link.uid⟩

/-- `Link.to_dict(uids_only=True)` (align.py lines 563-569): no uid field. -/
def linkToDict (l : Link) : SLink := ⟨l.query, l.target, l.identity, l.similarity⟩

/-- Embedding of `Globaligner.to_dict` (align.py lines 179-218): the
cluster-uid order list plus the five maps filled by the nested loops over
clusters/loci/genes and alignments/links. `Gene.to_dict()` (full payload,
modelled from the spec) is the Gene value itself. -/
def to_dict (g : GA) : Serial :=
  let base : Serial := ⟨g.clusters.map Prod.fst, [], [], [], [], []⟩
  let s1 := g.clusters.foldl
    (fun s p =>
      let s2 := { s with clusters := dictSet s.clusters p.1 (clusterToDict p.2) }
      p.2.loci.foldl
        (fun s3 locus =>
          let s4 := { s3 with loci := dictSet s3.loci locus.uid (locusToDict locus) }
          locus.genes.foldl
            (fun s5 gene => { s5 with genes := dictSet s5.genes gene.uid gene }) s4)
        s2)
    base
  g.alignments.foldl
    (fun s aln =>
      let s2 := { s with alignments := dictSet s.alignments aln.uid (alnToDict aln) }
      aln.links.foldl
        (fun s3 link => { s3 with links := dictSet s3.links link.uid (linkToDict link) })
        s2)
    s1

/-- A field under restoration: an unresolved identifier reference or the
resolved object (Python rebinds the same attribute from uid string to
object during `from_dict`). -/
inductive Ref (α : Type) where
  | uid : String → Ref α
  | obj : α → Ref α
  deriving DecidableEq

/-- Locus under restoration. -/
structure RLocus where
  uid : String
  genes : List (Ref Gene)
  deriving DecidableEq

/-- Cluster under restoration. -/
structure RCluster where
  uid : String
  name : String
  loci : List (Ref RLocus)
  deriving DecidableEq

/-- Link under restoration. -/
structure RLink where
  uid : String
  query : Ref Gene
  target : Ref Gene
  identity : ℚ
  similarity : ℚ
  deriving DecidableEq

/-- Alignment under restoration. -/
structure RAln where
  uid : String
  query : Ref RCluster
  target : Ref RCluster
  links : List (Ref RLink)
  deriving DecidableEq

/-- The Globaligner state rebuilt by `from_dict`. Note the rebuilt
`_alignment_indices` holds Alignment OBJECTS as values (align.py lines
254-255 assign `aln`, not a list index) and `_cluster_names` is keyed by
alignment uid (line 256), unlike the `add_alignment` bookkeeping. -/
structure RGA where
  clusters : List (String × RCluster)
  rgenes : List (String × Gene)
  rloci : List (String × RLocus)
  alignments : List RAln
  idx : List (String × List (String × RAln))
  names : List (String × (String × String))
  deriving DecidableEq

/-- Python list subscript: integer or string index. -/
inductive PyIdx where
  | int : Nat → PyIdx
  | str : String → PyIdx

/-- Python list item assignment `xs[k] = v`: an in-range integer index
replaces the element; out of range raises `IndexError`; a STRING index
always raises `TypeError` ("list indices must be integers"). -/
def pyListSet (xs : List α) (k : PyIdx) (v : α) : Except String (List α) :=
  match k with
  | PyIdx.int i =>
    if i < xs.length then Except.ok (xs.set i v) else Except.error "IndexError"
  | PyIdx.str _ => Except.error "TypeError: list indices must be integers"

/-- Reads the identifier a reference still holds; a resolved object used as
a dict key misses every string key (`KeyError`) — unreachable in
`from_dict`, which reads each reference before resolving it. -/
def refUid : Ref α → Except String String
  | Ref.uid s => Except.ok s
  | Ref.obj _ => Except.error "KeyError"

/-- Plain Python dict lookup: `KeyError` when the key is absent. -/
def dictGetE (d : List (String × α)) (k : String) : Except String α :=
  match dictGet d k with
  | some v => Except.ok v
  | none => Except.error "KeyError"

/-- Modelled from the spec: `Cluster.from_dict` of clinker.classes (not
under src/): `load_child` keeps non-dict child values, so the uids_only
loci references stay unresolved identifier strings. -/
def clusterFromDict (s : SCluster) : RCluster := ⟨s.uid, s.name, s.loci.map Ref.uid⟩

/-- Modelled from the spec: `Locus.from_dict` of clinker.classes (not under
src/). -/
def locusFromDict (s : SLocus) : RLocus := ⟨s.uid, s.genes.map Ref.uid⟩

/-- `Alignment.from_dict` (align.py lines 494-501): `load_children` keeps
the link uid strings, `load_child` the query/target cluster uid strings. -/
def alnFromDict (s : SAln) : RAln :=
  ⟨s.uid, Ref.uid s.query, Ref.uid s.target, s.links.map Ref.uid⟩

/-- `Link.from_dict` (align.py lines 571-575): the payload has no uid key,
so `cls(**d)` draws a fresh uid from the global `Link.id_iter` counter
(threaded explicitly). -/
def linkFromDict (s : SLink) (ctr : Nat) : RLink × Nat :=
  (⟨toString ctr, Ref.uid s.query, Ref.uid s.target, s.identity, s.similarity⟩, ctr + 1)

/-- Gene restoration loop of `from_dict` (align.py lines 234-237): for each
position of the locus gene list, read the uid reference, resolve the
payload (`Gene.from_dict`, modelled from the spec as the stored payload
itself), assign the Gene back at the INTEGER index `gene_idx`, and register
it in `ga._genes`. The Python loop iterates the list it mutates; the model
folds over the initial list, indistinguishable because each in-range
integer assignment only touches the position already passed. -/
def restoreGenes (dgenes : List (String × Gene)) (l : RLocus) (ga : RGA) :
    Except String (RLocus × RGA) := do
  let res ← l.genes.enum.foldlM
    (fun (acc : List (Ref Gene) × RGA) (p : Nat × Ref Gene) => do
      let gene_uid ← refUid p.2
      let gene ← dictGetE dgenes gene_uid
      let genes2 ← pyListSet acc.1 (PyIdx.int p.1) (Ref.obj gene)
      pure (genes2, { acc.2 with rgenes := dictSet acc.2.rgenes gene_uid gene }))
    (l.genes, ga)
  pure ({ l with genes := res.1 }, res.2)

/-- Locus restoration loop of `from_dict` (align.py lines 232-239): resolve
each locus payload, restore its genes, then execute
`cluster.loci[locus_uid] = locus` — the source indexes the loci LIST with
the uid STRING (the enumerate counter `locus_idx` is bound on line 232 but
never used), so this assignment raises `TypeError` whenever it runs. -/
def restoreLoci (d : Serial) (c : RCluster) (ga : RGA) :
    Except String (RCluster × RGA) := do
  let res ← c.loci.enum.foldlM
    (fun (acc : List (Ref RLocus) × RGA) (p : Nat × Ref RLocus) => do
      let locus_uid ← refUid p.2
      let slocus ← dictGetE d.loci locus_uid
      let r ← restoreGenes d.genes (locusFromDict slocus) acc.2
      let loci2 ← pyListSet acc.1 (PyIdx.str locus_uid) (Ref.obj r.1)
      pure (loci2, { r.2 with rloci := dictSet r.2.rloci locus_uid r.1 }))
    (c.loci, ga)
  pure ({ c with loci := res.1 }, res.2)

/-- Link restoration loop of `from_dict` (align.py lines 247-251): each
link payload is re-instantiated with a fresh uid, its gene references
resolved through `ga._genes` to the shared Gene instances, and assigned
back at the integer index. -/
def restoreLinks (d : Serial) (aln : RAln) (ga : RGA) (ctr : Nat) :
    Except String (RAln × Nat) := do
  let res ← aln.links.enum.foldlM
    (fun (acc : List (Ref RLink) × Nat) (p : Nat × Ref RLink) => do
      let uid ← refUid p.2
      let slink ← dictGetE d.links uid
      let lk := linkFromDict slink acc.2
      let q ← refUid lk.1.query
      let qg ← dictGetE ga.rgenes q
      let t ← refUid lk.1.target
      let tg ← dictGetE ga.rgenes t
      let link := { lk.1 with query := Ref.obj qg, target := Ref.obj tg }
      let links2 ← pyListSet acc.1 (PyIdx.int p.1) (Ref.obj link)
      pure (links2, lk.2))
    (aln.links, ctr)
  pure ({ aln with links := res.1 }, res.2)

/-- `d[a][b] = v` on the rebuilt `_alignment_indices` defaultdict (values
are Alignment objects here). -/
def rIdxSet (d : List (String × List (String × RAln))) (a b : String) (v : RAln) :
    List (String × List (String × RAln)) :=
  let p := match dictGet d a with
    | some inner => (inner, d)
    | none => ([], d ++ [(a, [])])
  dictSet p.2 a (dictSet p.1 b v)

/-- Embedding of `Globaligner.from_dict` (align.py lines 220-258): restore
clusters (loci, genes) in order, then alignments (links), rebuilding the
lookup dicts; `ctr` is the global Link uid counter. -/
def from_dict (d : Serial) (ctr : Nat) : Except String RGA := do
  let ga0 : RGA := ⟨[], [], [], [], [], []⟩
  let ga1 ← d.order.foldlM
    (fun (ga : RGA) cluster_uid => do
      let sc ← dictGetE d.clusters cluster_uid
      let r ← restoreLoci d (clusterFromDict sc) ga
      pure { r.2 with clusters := dictSet r.2.clusters cluster_uid r.1 })
    ga0
  let res ← d.alignments.foldlM
    (fun (acc : RGA × Nat) (p : String × SAln) => do
      let aln0 := alnFromDict p.2
      let quid ← refUid aln0.query
      let qc ← dictGetE acc.1.clusters quid
      let tuid ← refUid aln0.target
      let tc ← dictGetE acc.1.clusters tuid
      let aln1 := { aln0 with query := Ref.obj qc, target := Ref.obj tc }
      let r ← restoreLinks d aln1 acc.1 acc.2
      let ga := acc.1
      pure ({ ga with
          alignments := ga.alignments ++ [r.1],
          idx := rIdxSet (rIdxSet ga.idx qc.uid tc.uid r.1) tc.uid qc.uid r.1,
          names := dictSet ga.names r.1.uid (qc.uid, tc.uid) }, r.2))
    (ga1, ctr)
  pure res.1

/-- Concrete round-trip input for C5: two single-locus clusters and one
stored alignment with one link. -/
def c5cluster1 : Cluster := ⟨"d1", "one", [⟨"m1", [⟨"h1", "h1", "MSTK"⟩]⟩]⟩

def c5cluster2 : Cluster := ⟨"d2", "two", [⟨"m2", [⟨"h2", "h2", "MSTK"⟩]⟩]⟩

def c5aln : Alignment := ⟨"b1", c5cluster1, c5cluster2, [⟨"j1", "h1", "h2", 1, 1⟩]⟩

def c5store : GA := run [Op.add c5aln]

/-- C5 (code bug): `from_dict(to_dict(g))` does not restore the store. For
any cluster with at least one locus the restoration crashes with
`TypeError`, because align.py line 238 executes
`cluster.loci[locus_uid] = locus`, indexing the loci LIST with the locus
uid STRING — the enumerate counter `locus_idx` bound on line 232 goes
unused, while the parallel gene loop correctly uses `locus.genes[gene_idx]`.
Evaluated here on the concrete two-cluster store. -/
theorem c5_from_dict_type_error :
    from_dict (to_dict c5store) 0 =
      Except.error "TypeError: list indices must be integers" := by
  rfl

end Clinker
